import Mathlib

/-!
Shallow embedding of `src/diagrama.py` (inventory/sales tracker for a clothing
store).  Python `dict[int, V]` values (which preserve insertion order) are
modelled as association lists `List (Int × V)` whose keys are unique in every
state the program constructs; `int` is `Int`; `float` prices are modelled as
`ℚ` (the claims under study concern the algebraic structure of the
computations, not binary rounding); the clock consumed by `registrar_venda`
and the report generators is passed in explicitly as an `Int` timestamp.
`print` calls in the Python code are console side effects with no bearing on
state or return values and are noted in comments where they occur.
-/

namespace Diagrama

/-- First-match lookup in an insertion-ordered association list, the model of
`d[k]` / `d.get(k)` on a Python `dict` (keys are unique in every dict the
program builds, so first-match agrees with dict lookup). -/
def dictLookup {α : Type} : List (Int × α) → Int → Option α
  | [], _ => none
  | (k, v) :: rest, k' => if k' = k then some v else dictLookup rest k'

/-- Model of `k in d`. -/
def dictMem {α : Type} (d : List (Int × α)) (k : Int) : Bool :=
  (dictLookup d k).isSome

/-- Model of `d[k] = f(d[k])`-style in-place mutation of the value stored at
an existing key: the entry keeps its position, other entries are untouched. -/
def dictUpdate {α : Type} : List (Int × α) → Int → (α → α) → List (Int × α)
  | [], _, _ => []
  | (k, v) :: rest, k', f =>
      if k' = k then (k, f v) :: rest else (k, v) :: dictUpdate rest k' f

/-- Model of `d[k] = v` for a key known to be fresh (how
`adicionar_produto` inserts): Python dicts append new keys at the end. -/
def dictInsert {α : Type} (d : List (Int × α)) (k : Int) (v : α) : List (Int × α) :=
  d ++ [(k, v)]

/-- Model of `del d[k]`. -/
def dictDelete {α : Type} (d : List (Int × α)) (k : Int) : List (Int × α) :=
  d.filter (fun pr => !(pr.1 = k : Bool))

/-- Model of `d.values()` (insertion order). -/
def dictValues {α : Type} (d : List (Int × α)) : List α :=
  d.map (·.2)

/-- `class Produto` (`diagrama.py` lines 5–27). -/
structure Produto where
  id : Int
  nome : String
  tamanho : String
  cor : String
  quantidade : Int
  preco : ℚ
  limite_minimo : Int
deriving DecidableEq, Repr

/-- `Produto.atualizar_quantidade` (lines 21–23): `self.quantidade += quantidade`. -/
def Produto.atualizar_quantidade (p : Produto) (quantidade : Int) : Produto :=
  { p with quantidade := p.quantidade + quantidade }

/-- `Produto.verificar_estoque_baixo` (lines 25–27):
`return self.quantidade < self.limite_minimo`. -/
def Produto.verificar_estoque_baixo (p : Produto) : Bool :=
  p.quantidade < p.limite_minimo

/-- `class Venda` (lines 30–46).  `produtos` is the `{id_produto: quantidade}`
dict; `data` is the timestamp; `valor_total` is set by
`calcular_valor_total` during `registrar_venda`. -/
structure Venda where
  id : Int
  produtos : List (Int × Int)
  data : Int
  valor_total : ℚ
deriving DecidableEq, Repr

/-- `Venda.calcular_valor_total` (lines 43–46):
`sum(produtos[id_produto].preco * quantidade for id_produto, quantidade in self.produtos.items())`.
In Python a missing key would raise `KeyError`; at the sole call site
(`registrar_venda`, after validation) every key is present, so the `none`
branch below (contributing `0`) is unreachable there. -/
def calcular_valor_total (produtos : List (Int × Produto)) (itens : List (Int × Int)) : ℚ :=
  (itens.map (fun it =>
    (match dictLookup produtos it.1 with
     | some p => p.preco
     | none => 0) * (it.2 : ℚ))).sum

/-- `class Estoque` state (lines 49–57). -/
structure Estoque where
  produtos : List (Int × Produto)
  vendas : List Venda
  ultimo_id_produto : Int
  ultimo_id_venda : Int
deriving DecidableEq, Repr

/-- `Estoque.__init__` (lines 53–57). -/
def estoqueInicial : Estoque :=
  { produtos := [], vendas := [], ultimo_id_produto := 0, ultimo_id_venda := 0 }

/-- `Estoque.adicionar_produto` (lines 59–64). -/
def Estoque.adicionar_produto (e : Estoque) (nome tamanho cor : String)
    (quantidade : Int) (preco : ℚ) (limite_minimo : Int := 5) : Estoque × Produto :=
  let novo_id := e.ultimo_id_produto + 1
  let produto : Produto :=
    { id := novo_id, nome := nome, tamanho := tamanho, cor := cor,
      quantidade := quantidade, preco := preco, limite_minimo := limite_minimo }
  ({ e with produtos := dictInsert e.produtos novo_id produto,
            ultimo_id_produto := novo_id }, produto)

/-- Python truthiness of an `Optional[str]` (`if nome:`): `None` and the empty
string are falsy, every other string is truthy. -/
def truthyStr : Option String → Bool
  | none => false
  | some s => !(s = "" : Bool)

/-- The field assignments of `Estoque.atualizar_produto` (lines 75–86):
`if nome: ...` guards for the three string fields, `if x is not None: ...`
guards for the three numeric fields. -/
def aplicarCampos (p : Produto) (nome tamanho cor : Option String)
    (quantidade : Option Int) (preco : Option ℚ) (limite_minimo : Option Int) : Produto :=
  let p := if truthyStr nome then { p with nome := nome.getD p.nome } else p
  let p := if truthyStr tamanho then { p with tamanho := tamanho.getD p.tamanho } else p
  let p := if truthyStr cor then { p with cor := cor.getD p.cor } else p
  let p := match quantidade with
           | some q => { p with quantidade := q }
           | none => p
  let p := match preco with
           | some pr => { p with preco := pr }
           | none => p
  match limite_minimo with
  | some l => { p with limite_minimo := l }
  | none => p

/-- `Estoque.atualizar_produto` (lines 66–88): returns `None` when the id is
unknown, otherwise mutates the stored product in place and returns it. -/
def Estoque.atualizar_produto (e : Estoque) (id_produto : Int)
    (nome tamanho cor : Option String) (quantidade : Option Int)
    (preco : Option ℚ) (limite_minimo : Option Int) : Estoque × Option Produto :=
  match dictLookup e.produtos id_produto with
  | none => (e, none)
  | some p =>
      let p' := aplicarCampos p nome tamanho cor quantidade preco limite_minimo
      ({ e with produtos := dictUpdate e.produtos id_produto (fun _ => p') }, some p')

/-- `Estoque.remover_produto` (lines 90–95). -/
def Estoque.remover_produto (e : Estoque) (id_produto : Int) : Estoque × Bool :=
  if dictMem e.produtos id_produto then
    ({ e with produtos := dictDelete e.produtos id_produto }, true)
  else (e, false)

/-- The validation loop of `registrar_venda` (lines 102–109): scanning the
requested items in order, the first item whose product id is absent or whose
available quantity is below the requested quantity makes the method
`return None` (after printing an error); if the scan completes, validation
passed.  `true` means the commit phase is reached. -/
def validarVenda (produtos : List (Int × Produto)) : List (Int × Int) → Bool
  | [] => true
  | (id_produto, quantidade) :: rest =>
      match dictLookup produtos id_produto with
      | none => false
      | some p => if p.quantidade < quantidade then false else validarVenda produtos rest

/-- The commit loop of `registrar_venda` (lines 112–117): for each item,
`self.produtos[id_produto].atualizar_quantidade(-quantidade)`.  (The
low-stock check after each decrement only prints an alert; it neither
mutates state nor blocks the sale.) -/
def baixarEstoque (produtos : List (Int × Produto)) (itens : List (Int × Int)) :
    List (Int × Produto) :=
  itens.foldl (fun ps it =>
    dictUpdate ps it.1 (fun p => p.atualizar_quantidade (-it.2))) produtos

/-- `Estoque.registrar_venda` (lines 97–125).  `agora` is the clock value the
`Venda` constructor reads (`datetime.datetime.now()`).  On validation failure
the method prints an error and returns `None` with no state change; on
success it decrements stock, allocates the next sale id, builds the sale,
computes its total against the post-decrement product map, appends it and
returns it. -/
def Estoque.registrar_venda (e : Estoque) (agora : Int)
    (produtos_vendidos : List (Int × Int)) : Estoque × Option Venda :=
  if validarVenda e.produtos produtos_vendidos then
    let produtos' := baixarEstoque e.produtos produtos_vendidos
    let novo_id := e.ultimo_id_venda + 1
    let venda : Venda :=
      { id := novo_id, produtos := produtos_vendidos, data := agora,
        valor_total := calcular_valor_total produtos' produtos_vendidos }
    ({ e with produtos := produtos', vendas := e.vendas ++ [venda],
              ultimo_id_venda := novo_id }, some venda)
  else (e, none)

/-- `Estoque.listar_produtos` (lines 127–129): `list(self.produtos.values())`. -/
def Estoque.listar_produtos (e : Estoque) : List Produto :=
  dictValues e.produtos

/-- `Estoque.listar_produtos_estoque_baixo` (lines 131–133):
`[produto for produto in self.produtos.values() if produto.verificar_estoque_baixo()]`. -/
def Estoque.listar_produtos_estoque_baixo (e : Estoque) : List Produto :=
  (dictValues e.produtos).filter Produto.verificar_estoque_baixo

/-- `Venda.__str__` (lines 40–41).  `fmtDataHora` stands in for
`strftime('%d/%m/%Y %H:%M')` and `fmtValor` for the `:.2f` format spec;
the claims under study never depend on the rendered digits, so the report
theorems quantify over arbitrary formatters. -/
def Venda.str (fmtDataHora : Int → String) (fmtValor : ℚ → String) (v : Venda) : String :=
  "Venda #" ++ toString v.id ++ " | Data: " ++ fmtDataHora v.data ++
    " | Valor: R$" ++ fmtValor v.valor_total

/-- One line item of the sales report (lines 166–171): product details when
the id is still in the product map, the \x22não encontrado no estoque
atual\x22 marker otherwise. -/
def linhaItem (produtos : List (Int × Produto)) (fmtValor : ℚ → String)
    (it : Int × Int) : String :=
  match dictLookup produtos it.1 with
  | some p =>
      "  - " ++ toString it.2 ++ "x " ++ p.nome ++ " (Tamanho: " ++ p.tamanho ++
        ", Cor: " ++ p.cor ++ ") - R$" ++ fmtValor p.preco ++ " cada"
  | none =>
      "  - " ++ toString it.2 ++ "x Produto ID " ++ toString it.1 ++
        " (não encontrado no estoque atual)"

/-- The period filter of `gerar_relatorio_vendas` (lines 149–155).  Python
substitutes `datetime.min` / `datetime.max` for omitted bounds and then tests
`data_inicio <= venda.data <= data_fim`; with timestamps as unbounded `Int`
the sentinels are modelled by `none` (no bound), which is extensionally the
same filter. -/
def noPeriodo (data_inicio data_fim : Option Int) (d : Int) : Bool :=
  (match data_inicio with
   | none => true
   | some di => decide (di ≤ d)) &&
  (match data_fim with
   | none => true
   | some df => decide (d ≤ df))

/-- The block of report lines one sale contributes (lines 163–172): the
sale's `__str__`, the `Produtos vendidos:` header, one line per line item,
and the trailing blank line. -/
def blocoVenda (produtos : List (Int × Produto)) (fmtDataHora : Int → String)
    (fmtValor : ℚ → String) (v : Venda) : List String :=
  [v.str fmtDataHora fmtValor, "Produtos vendidos:"] ++
    v.produtos.map (linhaItem produtos fmtValor) ++ [""]

/-- `Estoque.gerar_relatorio_vendas` (lines 147–174) as the list of
`\n`-terminated pieces it concatenates, in order: every `relatorio += ...`
in the source contributes its lines here (line 158–159 build one line in two
pieces; line 161 ends `\n\n`, i.e. the line plus a blank).  `fmtData` stands
in for `strftime('%d/%m/%Y')`; an omitted bound renders as `Início` / `Hoje`. -/
def linhasRelatorioVendas (e : Estoque) (fmtDataHora fmtData : Int → String)
    (fmtValor : ℚ → String) (data_inicio data_fim : Option Int) : List String :=
  let vendas_periodo := e.vendas.filter (fun v => noPeriodo data_inicio data_fim v.data)
  ["===== RELATÓRIO DE VENDAS =====",
   "Período: " ++ (match data_inicio with
                   | some d => fmtData d
                   | none => "Início") ++
     " a " ++ (match data_fim with
               | some d => fmtData d
               | none => "Hoje"),
   "Total de vendas: " ++ toString vendas_periodo.length,
   "Valor total: R$" ++ fmtValor (vendas_periodo.map (·.valor_total)).sum,
   ""] ++
    (vendas_periodo.map (blocoVenda e.produtos fmtDataHora fmtValor)).flatten

/-- The string concatenation performed by the successive `relatorio += ...`
statements: each piece followed by its `\n`. -/
def juntarLinhas : List String → String
  | [] => ""
  | l :: rest => l ++ "\n" ++ juntarLinhas rest

/-- `Estoque.gerar_relatorio_vendas` (lines 147–174), the final report
string.  A total function: the dangling-id case is handled by the marker
branch of `linhaItem`, never by an exception. -/
def Estoque.gerar_relatorio_vendas (e : Estoque) (fmtDataHora fmtData : Int → String)
    (fmtValor : ℚ → String) (data_inicio data_fim : Option Int) : String :=
  juntarLinhas (linhasRelatorioVendas e fmtDataHora fmtData fmtValor data_inicio data_fim)

/-! ### Association-list (dict) lemmas -/

/-- Keys of a dict, in insertion order. -/
def dictKeys {α : Type} (d : List (Int × α)) : List Int :=
  d.map (·.1)

theorem dictLookup_dictUpdate {α : Type} (d : List (Int × α)) (k k' : Int) (f : α → α) :
    dictLookup (dictUpdate d k f) k' =
      if k' = k then (dictLookup d k).map f else dictLookup d k' := by
  induction d with
  | nil => simp [dictUpdate, dictLookup]
  | cons pr rest ih =>
      obtain ⟨k0, v⟩ := pr
      by_cases h1 : k = k0
      · subst h1
        by_cases h2 : k' = k <;> simp [dictUpdate, dictLookup, h2]
      · by_cases h2 : k' = k0
        · subst h2
          simp [dictUpdate, dictLookup, h1, Ne.symm h1]
        · simp [dictUpdate, dictLookup, h1, h2, ih]

theorem dictLookup_mem_values {α : Type} {d : List (Int × α)} {k : Int} {v : α}
    (h : dictLookup d k = some v) : v ∈ dictValues d := by
  induction d with
  | nil => simp [dictLookup] at h
  | cons pr rest ih =>
      obtain ⟨k0, w⟩ := pr
      by_cases h0 : k = k0
      · simp [dictLookup, h0] at h
        simp [dictValues, h]
      · simp [dictLookup, h0] at h
        simpa [dictValues] using Or.inr (ih h)

theorem mem_values_dictUpdate {α : Type} {d : List (Int × α)} {k : Int} {f : α → α} :
    ∀ v ∈ dictValues (dictUpdate d k f),
      v ∈ dictValues d ∨ ∃ w, dictLookup d k = some w ∧ v = f w := by
  induction d with
  | nil => simp [dictUpdate, dictValues]
  | cons pr rest ih =>
      obtain ⟨k0, w⟩ := pr
      by_cases h0 : k = k0
      · subst h0
        intro v hv
        simp [dictUpdate, dictValues] at hv
        rcases hv with rfl | hv
        · exact Or.inr ⟨w, by simp [dictLookup], rfl⟩
        · exact Or.inl (by simp [dictValues, hv])
      · intro v hv
        simp [dictUpdate, h0, dictValues] at hv
        rcases hv with rfl | hv
        · exact Or.inl (by simp [dictValues])
        · rcases ih v (by simpa [dictValues] using hv) with hm | ⟨w', hw', rfl⟩
          · exact Or.inl (by simp [dictValues] at hm ⊢; exact Or.inr hm)
          · exact Or.inr ⟨w', by simpa [dictLookup, Ne.symm h0, h0] using hw', rfl⟩

theorem dictValues_dictInsert {α : Type} (d : List (Int × α)) (k : Int) (v : α) :
    dictValues (dictInsert d k v) = dictValues d ++ [v] := by
  simp [dictValues, dictInsert]

theorem mem_values_dictDelete {α : Type} {d : List (Int × α)} {k : Int} {v : α}
    (h : v ∈ dictValues (dictDelete d k)) : v ∈ dictValues d := by
  simp only [dictValues, dictDelete, List.mem_map] at h ⊢
  obtain ⟨pr, hpr, rfl⟩ := h
  exact ⟨pr, (List.mem_filter.mp hpr).1, rfl⟩

theorem dictLookup_baixarEstoque_notMem {d : List (Int × Produto)}
    {itens : List (Int × Int)} {k : Int} (h : k ∉ itens.map (·.1)) :
    dictLookup (baixarEstoque d itens) k = dictLookup d k := by
  induction itens generalizing d with
  | nil => simp [baixarEstoque]
  | cons it rest ih =>
      obtain ⟨k0, q0⟩ := it
      simp only [List.map_cons, List.mem_cons] at h
      push_neg at h
      have hrest := ih (d := dictUpdate d k0 (fun p => p.atualizar_quantidade (-q0))) h.2
      simp only [baixarEstoque, List.foldl_cons] at *
      rw [hrest, dictLookup_dictUpdate, if_neg h.1]

theorem dictLookup_baixarEstoque_mem {d : List (Int × Produto)}
    {itens : List (Int × Int)} {k q : Int}
    (hnd : (itens.map (·.1)).Nodup) (hmem : (k, q) ∈ itens) :
    dictLookup (baixarEstoque d itens) k =
      (dictLookup d k).map (fun p => p.atualizar_quantidade (-q)) := by
  induction itens generalizing d with
  | nil => simp at hmem
  | cons it rest ih =>
      obtain ⟨k0, q0⟩ := it
      simp only [List.map_cons, List.nodup_cons] at hnd
      rcases List.mem_cons.mp hmem with h | h
      · obtain ⟨rfl, rfl⟩ := Prod.mk.injEq .. ▸ h
        have : k ∉ rest.map (·.1) := hnd.1
        simp only [baixarEstoque, List.foldl_cons]
        rw [show (rest.foldl (fun ps it =>
              dictUpdate ps it.1 (fun p => p.atualizar_quantidade (-it.2)))
              (dictUpdate d k (fun p => p.atualizar_quantidade (-q)))) =
            baixarEstoque (dictUpdate d k (fun p => p.atualizar_quantidade (-q))) rest from rfl,
          dictLookup_baixarEstoque_notMem this, dictLookup_dictUpdate, if_pos rfl]
      · have hk : k ≠ k0 := by
          rintro rfl
          exact hnd.1 (List.mem_map.mpr ⟨(k, q), h, rfl⟩)
        simp only [baixarEstoque, List.foldl_cons] at *
        rw [ih hnd.2 h, dictLookup_dictUpdate, if_neg hk]

theorem mem_values_baixarEstoque {d : List (Int × Produto)} {itens : List (Int × Int)}
    (hnd : (itens.map (·.1)).Nodup) :
    ∀ v ∈ dictValues (baixarEstoque d itens),
      v ∈ dictValues d ∨
        ∃ k q w, (k, q) ∈ itens ∧ dictLookup d k = some w ∧
          v = w.atualizar_quantidade (-q) := by
  induction itens generalizing d with
  | nil => intro v hv; exact Or.inl hv
  | cons it rest ih =>
      obtain ⟨k0, q0⟩ := it
      simp only [List.map_cons, List.nodup_cons] at hnd
      intro v hv
      simp only [baixarEstoque, List.foldl_cons] at hv
      rcases ih hnd.2 v hv with hm | ⟨k, q, w, hk, hw, rfl⟩
      · rcases mem_values_dictUpdate v hm with hm' | ⟨w, hw, rfl⟩
        · exact Or.inl hm'
        · exact Or.inr ⟨k0, q0, w, List.mem_cons_self .., hw, rfl⟩
      · have hk0 : k ≠ k0 := by
          rintro rfl
          exact hnd.1 (List.mem_map.mpr ⟨(k, q), hk, rfl⟩)
        rw [dictLookup_dictUpdate, if_neg hk0] at hw
        exact Or.inr ⟨k, q, w, List.mem_cons_of_mem _ hk, hw, rfl⟩

theorem validarVenda_eq_true {produtos : List (Int × Produto)} {itens : List (Int × Int)} :
    validarVenda produtos itens = true ↔
      ∀ it ∈ itens, ∃ p, dictLookup produtos it.1 = some p ∧ it.2 ≤ p.quantidade := by
  induction itens with
  | nil => simp [validarVenda]
  | cons it rest ih =>
      obtain ⟨id_produto, quantidade⟩ := it
      simp only [validarVenda]
      cases h : dictLookup produtos id_produto with
      | none =>
          simp only [List.forall_mem_cons, h]
          constructor
          · intro hfalse; cases hfalse
          · rintro ⟨⟨p, hp, -⟩, -⟩; cases hp
      | some p =>
          by_cases hq : p.quantidade < quantidade
          · simp only [if_pos hq, List.forall_mem_cons, h]
            constructor
            · intro hfalse; cases hfalse
            · rintro ⟨⟨p', hp', hle⟩, -⟩
              obtain rfl : p = p' := by injection hp'
              omega
          · simp only [if_neg hq, List.forall_mem_cons, h, ih]
            constructor
            · intro hrest
              exact ⟨⟨p, rfl, by omega⟩, hrest⟩
            · rintro ⟨-, hrest⟩; exact hrest

/-- Decrementing a quantity never touches the price (or any other field):
`atualizar_quantidade` only rewrites `quantidade`. -/
theorem atualizar_quantidade_preco (p : Produto) (q : Int) :
    (p.atualizar_quantidade q).preco = p.preco := rfl

/-- The sale total computed against the post-decrement product map equals the
total against the pre-decrement map: the commit loop changes only
quantities, never prices. -/
theorem calcular_valor_total_baixarEstoque {d : List (Int × Produto)}
    {itens : List (Int × Int)} (hnd : (itens.map (·.1)).Nodup) :
    calcular_valor_total (baixarEstoque d itens) itens = calcular_valor_total d itens := by
  unfold calcular_valor_total
  congr 1
  apply List.map_congr_left
  intro it hit
  obtain ⟨k, q⟩ := it
  rw [dictLookup_baixarEstoque_mem hnd hit]
  cases h : dictLookup d k <;> simp [h, Produto.atualizar_quantidade]

theorem aplicarCampos_id (p : Produto) (n t c : Option String)
    (oq : Option Int) (op : Option ℚ) (ol : Option Int) :
    (aplicarCampos p n t c oq op ol).id = p.id := by
  cases oq <;> cases op <;> cases ol <;>
    cases hn : truthyStr n <;> cases ht : truthyStr t <;> cases hc : truthyStr c <;>
      simp [aplicarCampos, hn, ht, hc]

theorem aplicarCampos_nome (p : Produto) (n t c : Option String)
    (oq : Option Int) (op : Option ℚ) (ol : Option Int) :
    (aplicarCampos p n t c oq op ol).nome =
      if truthyStr n then n.getD p.nome else p.nome := by
  cases oq <;> cases op <;> cases ol <;>
    cases hn : truthyStr n <;> cases ht : truthyStr t <;> cases hc : truthyStr c <;>
      simp [aplicarCampos, hn, ht, hc]

theorem aplicarCampos_tamanho (p : Produto) (n t c : Option String)
    (oq : Option Int) (op : Option ℚ) (ol : Option Int) :
    (aplicarCampos p n t c oq op ol).tamanho =
      if truthyStr t then t.getD p.tamanho else p.tamanho := by
  cases oq <;> cases op <;> cases ol <;>
    cases hn : truthyStr n <;> cases ht : truthyStr t <;> cases hc : truthyStr c <;>
      simp [aplicarCampos, hn, ht, hc]

theorem aplicarCampos_cor (p : Produto) (n t c : Option String)
    (oq : Option Int) (op : Option ℚ) (ol : Option Int) :
    (aplicarCampos p n t c oq op ol).cor =
      if truthyStr c then c.getD p.cor else p.cor := by
  cases oq <;> cases op <;> cases ol <;>
    cases hn : truthyStr n <;> cases ht : truthyStr t <;> cases hc : truthyStr c <;>
      simp [aplicarCampos, hn, ht, hc]

theorem aplicarCampos_quantidade (p : Produto) (n t c : Option String)
    (oq : Option Int) (op : Option ℚ) (ol : Option Int) :
    (aplicarCampos p n t c oq op ol).quantidade = oq.getD p.quantidade := by
  cases oq <;> cases op <;> cases ol <;>
    cases hn : truthyStr n <;> cases ht : truthyStr t <;> cases hc : truthyStr c <;>
      simp [aplicarCampos, hn, ht, hc]

theorem aplicarCampos_preco (p : Produto) (n t c : Option String)
    (oq : Option Int) (op : Option ℚ) (ol : Option Int) :
    (aplicarCampos p n t c oq op ol).preco = op.getD p.preco := by
  cases oq <;> cases op <;> cases ol <;>
    cases hn : truthyStr n <;> cases ht : truthyStr t <;> cases hc : truthyStr c <;>
      simp [aplicarCampos, hn, ht, hc]

theorem aplicarCampos_limite (p : Produto) (n t c : Option String)
    (oq : Option Int) (op : Option ℚ) (ol : Option Int) :
    (aplicarCampos p n t c oq op ol).limite_minimo = ol.getD p.limite_minimo := by
  cases oq <;> cases op <;> cases ol <;>
    cases hn : truthyStr n <;> cases ht : truthyStr t <;> cases hc : truthyStr c <;>
      simp [aplicarCampos, hn, ht, hc]

/-- A validation failure somewhere in the requested items (unknown id, or
available strictly below requested) makes the validation loop return
`false`. -/
theorem validarVenda_false_of_falha {produtos : List (Int × Produto)}
    {m : List (Int × Int)}
    (hfail : ∃ it ∈ m, dictLookup produtos it.1 = none ∨
      ∃ p, dictLookup produtos it.1 = some p ∧ p.quantidade < it.2) :
    validarVenda produtos m = false := by
  rcases Bool.eq_false_or_eq_true (validarVenda produtos m) with hv | hv
  swap
  · exact hv
  · exfalso
    obtain ⟨it, hit, hbad⟩ := hfail
    obtain ⟨p, hp, hle⟩ := validarVenda_eq_true.mp hv it hit
    rcases hbad with hnone | ⟨p', hp', hlt⟩
    · rw [hp] at hnone; cases hnone
    · rw [hp] at hp'
      obtain rfl : p = p' := by injection hp'
      omega

/-! ### Concrete ledgers used by witnesses and counterexamples -/

/-- The spec's atomicity example: product A (id 1, quantity 5) and product B
(id 2, quantity 2), built through `adicionar_produto` from the empty ledger. -/
def estoqueAB : Estoque :=
  ((estoqueInicial.adicionar_produto "A" "M" "Preta" 5 10).1.adicionar_produto
    "B" "G" "Azul" 2 20).1

/-- The spec's settlement example: one product (id 1) with quantity 10 and
price 49.90. -/
def estoqueC2 : Estoque :=
  (estoqueInicial.adicionar_produto "Camiseta Básica" "M" "Preta" 10 (4990 / 100)).1

/-- Two low-stock products inserted with quantities 3 then 1 (both below the
default threshold 5). -/
def estoqueBaixo : Estoque :=
  ((estoqueInicial.adicionar_produto "X" "M" "Preta" 3 10).1.adicionar_produto
    "Y" "G" "Azul" 1 20).1

/-! ### Claims -/

/-- C5: `verificar_estoque_baixo` is a pure function of quantity and
threshold using strict inequality: it is `true` iff `quantidade <
limite_minimo`; quantity equal to the threshold is NOT low, and quantity
equal to threshold − 1 IS low. -/
theorem verificar_estoque_baixo_spec (p : Produto) :
    (p.verificar_estoque_baixo = true ↔ p.quantidade < p.limite_minimo) ∧
    (p.quantidade = p.limite_minimo → p.verificar_estoque_baixo = false) ∧
    (p.quantidade = p.limite_minimo - 1 → p.verificar_estoque_baixo = true) := by
  refine ⟨by simp [Produto.verificar_estoque_baixo], ?_, ?_⟩ <;>
    intro h <;> simp [Produto.verificar_estoque_baixo, h]

/-- C5 witness: a product at quantity 5 with threshold 5 is not low; one at
quantity 4 with threshold 5 is low. -/
theorem verificar_estoque_baixo_spec_witness :
    (⟨1, "A", "M", "Preta", 5, 10, 5⟩ : Produto).verificar_estoque_baixo = false ∧
    (⟨2, "B", "G", "Azul", 4, 10, 5⟩ : Produto).verificar_estoque_baixo = true :=
  ⟨(verificar_estoque_baixo_spec _).2.1 (by decide),
   (verificar_estoque_baixo_spec _).2.2 (by decide)⟩

/-- C10: settling an empty requested-items mapping always succeeds: the
product map and the product-id counter are untouched, the sale-id counter
increments by 1, and a sale with no line items and total 0 is appended and
returned. -/
theorem registrar_venda_vazia (e : Estoque) (agora : Int) :
    (e.registrar_venda agora []).1.produtos = e.produtos ∧
    (e.registrar_venda agora []).1.ultimo_id_produto = e.ultimo_id_produto ∧
    (e.registrar_venda agora []).1.ultimo_id_venda = e.ultimo_id_venda + 1 ∧
    (e.registrar_venda agora []).2 =
      some { id := e.ultimo_id_venda + 1, produtos := [], data := agora,
             valor_total := 0 } ∧
    (e.registrar_venda agora []).1.vendas =
      e.vendas ++ [{ id := e.ultimo_id_venda + 1, produtos := [], data := agora,
                     valor_total := 0 }] := by
  refine ⟨?_, ?_, ?_, ?_, ?_⟩ <;>
    simp [Estoque.registrar_venda, validarVenda, baixarEstoque, calcular_valor_total]

/-- C1: a validation failure on any line item (unknown id, or available
strictly below requested) aborts the sale with no mutation at all — the
returned state is exactly the input state (same product map, same sales
sequence, same counters) and the result is `none`. -/
theorem registrar_venda_atomica (e : Estoque) (agora : Int) (m : List (Int × Int))
    (hfail : ∃ it ∈ m, dictLookup e.produtos it.1 = none ∨
      ∃ p, dictLookup e.produtos it.1 = some p ∧ p.quantidade < it.2) :
    e.registrar_venda agora m = (e, none) := by
  simp [Estoque.registrar_venda, validarVenda_false_of_falha hfail]

/-- C1 witness: the spec's example — requesting `{A: 3, B: 5}` against
`estoqueAB` (A has 5, B has only 2) fails and leaves the ledger exactly as
it was, with A still at quantity 5. -/
theorem registrar_venda_atomica_witness :
    estoqueAB.registrar_venda 0 [(1, 3), (2, 5)] = (estoqueAB, none) ∧
    dictLookup estoqueAB.produtos 1 =
      some ⟨1, "A", "M", "Preta", 5, 10, 5⟩ :=
  ⟨registrar_venda_atomica estoqueAB 0 [(1, 3), (2, 5)]
    ⟨(2, 5), by decide, Or.inr ⟨⟨2, "B", "G", "Azul", 2, 20, 5⟩, by decide, by decide⟩⟩,
   by decide⟩

/-- C3 counterexample: the two distinct validation failures — an unknown
product id (99) and insufficient stock (product 2 has 2, requested 5) —
return the very same value, a bare `none` that carries neither the offending
identifier nor any quantities; the structured details exist only as console
prints in the Python code.  This refutes the claim that a failing
`registrar_venda` yields a structured, inspectable failure value. -/
theorem registrar_venda_falha_counterexample :
    (estoqueAB.registrar_venda 0 [(99, 1)]).2 = none ∧
    (estoqueAB.registrar_venda 0 [(2, 5)]).2 = none ∧
    (estoqueAB.registrar_venda 0 [(99, 1)]).2 =
      (estoqueAB.registrar_venda 0 [(2, 5)]).2 := by
  refine ⟨?_, ?_, ?_⟩ <;> decide

/-- C3 amended: every failing `registrar_venda` call returns the
undifferentiated `none` signal (Python `None`); the offending identifier and
the shortfall are only printed to the console, never returned. -/
theorem registrar_venda_falha_none (e : Estoque) (agora : Int) (m : List (Int × Int))
    (hfail : ∃ it ∈ m, dictLookup e.produtos it.1 = none ∨
      ∃ p, dictLookup e.produtos it.1 = some p ∧ p.quantidade < it.2) :
    (e.registrar_venda agora m).2 = none := by
  simp [Estoque.registrar_venda, validarVenda_false_of_falha hfail]

/-- C3 amended witness: requesting 6 units of product 1 (which has 5) yields
`none`. -/
theorem registrar_venda_falha_none_witness :
    (estoqueAB.registrar_venda 0 [(1, 6)]).2 = none :=
  registrar_venda_falha_none estoqueAB 0 [(1, 6)]
    ⟨(1, 6), by decide, Or.inr ⟨⟨1, "A", "M", "Preta", 5, 10, 5⟩, by decide, by decide⟩⟩

/-- C6 counterexample: in `estoqueBaixo` both products are low-stock and
`listar_produtos_estoque_baixo` returns them in product-map insertion order
with quantities `[3, 1]` — not ascending.  (The ascending-quantity sort in
the program lives in the `Interface` display layer, line 458, not in this
ledger method.) -/
theorem listar_estoque_baixo_counterexample :
    (estoqueBaixo.listar_produtos_estoque_baixo.map Produto.quantidade = [3, 1]) ∧
    ¬ List.Sorted (· ≤ ·) (estoqueBaixo.listar_produtos_estoque_baixo.map
        Produto.quantidade) := by
  constructor
  · decide
  · intro h
    rw [show estoqueBaixo.listar_produtos_estoque_baixo.map Produto.quantidade
          = [3, 1] by decide] at h
    exact absurd (List.rel_of_sorted_cons h 1 (by decide)) (by decide)

/-- C6 amended: `listar_produtos_estoque_baixo` returns exactly the products
for which `verificar_estoque_baixo` holds, as a subsequence of the product
map's values in their insertion order; it does not sort by quantity (the
display layer does that). -/
theorem listar_estoque_baixo_spec (e : Estoque) :
    (∀ p, p ∈ e.listar_produtos_estoque_baixo ↔
      (p ∈ dictValues e.produtos ∧ p.verificar_estoque_baixo = true)) ∧
    e.listar_produtos_estoque_baixo.Sublist (dictValues e.produtos) := by
  constructor
  · intro p
    simp [Estoque.listar_produtos_estoque_baixo, List.mem_filter]
  · exact List.filter_sublist _

/-- C2: when every requested item references an existing product with
available quantity at least the requested quantity (keys unique, as in a
Python dict), `registrar_venda` succeeds: each referenced product's quantity
drops by exactly the requested amount, a sale carrying the original
requested-items mapping is appended, and the returned sale's total is the
sum over line items of (unit price at settlement time × requested
quantity) — `calcular_valor_total` evaluated against the pre-decrement
product map, which prices-wise coincides with the post-decrement one. -/
theorem registrar_venda_sucesso (e : Estoque) (agora : Int) (m : List (Int × Int))
    (hnd : (m.map (·.1)).Nodup)
    (hok : ∀ it ∈ m, ∃ p, dictLookup e.produtos it.1 = some p ∧ it.2 ≤ p.quantidade) :
    ∃ v, (e.registrar_venda agora m).2 = some v ∧
      v.produtos = m ∧
      (e.registrar_venda agora m).1.vendas = e.vendas ++ [v] ∧
      v.valor_total = calcular_valor_total e.produtos m ∧
      ∀ k q p, (k, q) ∈ m → dictLookup e.produtos k = some p →
        dictLookup (e.registrar_venda agora m).1.produtos k =
          some { p with quantidade := p.quantidade - q } := by
  have hv : validarVenda e.produtos m = true := validarVenda_eq_true.mpr hok
  refine ⟨{ id := e.ultimo_id_venda + 1, produtos := m, data := agora,
            valor_total := calcular_valor_total (baixarEstoque e.produtos m) m },
    ?_, rfl, ?_, ?_, ?_⟩
  · simp [Estoque.registrar_venda, hv]
  · simp [Estoque.registrar_venda, hv]
  · exact calcular_valor_total_baixarEstoque hnd
  · intro k q p hm hp
    simp only [Estoque.registrar_venda, hv, if_pos]
    rw [dictLookup_baixarEstoque_mem hnd hm, hp]
    simp [Produto.atualizar_quantidade, sub_eq_add_neg]

/-- Concrete evaluation: the position of product 1 in the example ledger. -/
theorem estoqueC2_lookup :
    dictLookup estoqueC2.produtos 1 =
      some ⟨1, "Camiseta Básica", "M", "Preta", 10, 4990 / 100, 5⟩ := by
  norm_num [estoqueC2, estoqueInicial, Estoque.adicionar_produto, dictInsert, dictLookup]

/-- Concrete evaluation of the example settlement: the returned sale has
total `1497/10 = 149.70`. -/
theorem estoqueC2_venda_eval :
    (estoqueC2.registrar_venda 0 [(1, 3)]).2 = some ⟨1, [(1, 3)], 0, 1497 / 10⟩ := by
  norm_num [estoqueC2, estoqueInicial, Estoque.adicionar_produto, Estoque.registrar_venda,
    validarVenda, dictLookup, dictInsert, baixarEstoque, dictUpdate, calcular_valor_total,
    Produto.atualizar_quantidade]

/-- Concrete evaluation of the example settlement: the product ends at
quantity 7 with its price untouched. -/
theorem estoqueC2_produto_eval :
    dictLookup (estoqueC2.registrar_venda 0 [(1, 3)]).1.produtos 1 =
      some ⟨1, "Camiseta Básica", "M", "Preta", 7, 4990 / 100, 5⟩ := by
  norm_num [estoqueC2, estoqueInicial, Estoque.adicionar_produto, Estoque.registrar_venda,
    validarVenda, dictLookup, dictInsert, baixarEstoque, dictUpdate, calcular_valor_total,
    Produto.atualizar_quantidade]

/-- C2 witness: the spec's settlement example, instantiated — selling 3
units of the 49.90-priced product with stock 10; concretely the quantity
becomes 7 and the returned total is 149.70. -/
theorem registrar_venda_sucesso_witness :
    (∃ v, (estoqueC2.registrar_venda 0 [(1, 3)]).2 = some v ∧
      v.produtos = [(1, 3)] ∧
      (estoqueC2.registrar_venda 0 [(1, 3)]).1.vendas = estoqueC2.vendas ++ [v] ∧
      v.valor_total = calcular_valor_total estoqueC2.produtos [(1, 3)] ∧
      ∀ k q p, (k, q) ∈ ([(1, 3)] : List (Int × Int)) →
        dictLookup estoqueC2.produtos k = some p →
        dictLookup (estoqueC2.registrar_venda 0 [(1, 3)]).1.produtos k =
          some { p with quantidade := p.quantidade - q }) ∧
    (estoqueC2.registrar_venda 0 [(1, 3)]).2 =
      some ⟨1, [(1, 3)], 0, 1497 / 10⟩ ∧
    dictLookup (estoqueC2.registrar_venda 0 [(1, 3)]).1.produtos 1 =
      some ⟨1, "Camiseta Básica", "M", "Preta", 7, 4990 / 100, 5⟩ :=
  ⟨registrar_venda_sucesso estoqueC2 0 [(1, 3)] (by decide)
    (by
      intro it hit
      simp only [List.mem_singleton] at hit
      subst hit
      exact ⟨_, estoqueC2_lookup, by norm_num⟩),
   estoqueC2_venda_eval, estoqueC2_produto_eval⟩

/-- C9: `atualizar_produto` on an unknown id returns `none` and leaves the
whole ledger unchanged; on a known id it applies exactly the supplied
fields — an absent (`none`) or empty name/size/color is left unchanged,
while any supplied quantity/price/threshold value, including zero, is
applied — and every other product, the sales sequence and both counters are
unchanged. -/
theorem atualizar_produto_spec (e : Estoque) (id_produto : Int)
    (nome tamanho cor : Option String) (quantidade : Option Int)
    (preco : Option ℚ) (limite_minimo : Option Int) :
    (dictLookup e.produtos id_produto = none →
      e.atualizar_produto id_produto nome tamanho cor quantidade preco limite_minimo
        = (e, none)) ∧
    ∀ p, dictLookup e.produtos id_produto = some p →
      ∃ p',
        (e.atualizar_produto id_produto nome tamanho cor quantidade preco
            limite_minimo).2 = some p' ∧
        dictLookup (e.atualizar_produto id_produto nome tamanho cor quantidade preco
            limite_minimo).1.produtos id_produto = some p' ∧
        (∀ k, k ≠ id_produto →
          dictLookup (e.atualizar_produto id_produto nome tamanho cor quantidade preco
              limite_minimo).1.produtos k = dictLookup e.produtos k) ∧
        (e.atualizar_produto id_produto nome tamanho cor quantidade preco
            limite_minimo).1.vendas = e.vendas ∧
        (e.atualizar_produto id_produto nome tamanho cor quantidade preco
            limite_minimo).1.ultimo_id_produto = e.ultimo_id_produto ∧
        (e.atualizar_produto id_produto nome tamanho cor quantidade preco
            limite_minimo).1.ultimo_id_venda = e.ultimo_id_venda ∧
        ((nome = none ∨ nome = some "") → p'.nome = p.nome) ∧
        (∀ s, nome = some s → s ≠ "" → p'.nome = s) ∧
        ((tamanho = none ∨ tamanho = some "") → p'.tamanho = p.tamanho) ∧
        (∀ s, tamanho = some s → s ≠ "" → p'.tamanho = s) ∧
        ((cor = none ∨ cor = some "") → p'.cor = p.cor) ∧
        (∀ s, cor = some s → s ≠ "" → p'.cor = s) ∧
        (quantidade = none → p'.quantidade = p.quantidade) ∧
        (∀ q, quantidade = some q → p'.quantidade = q) ∧
        (preco = none → p'.preco = p.preco) ∧
        (∀ x, preco = some x → p'.preco = x) ∧
        (limite_minimo = none → p'.limite_minimo = p.limite_minimo) ∧
        (∀ l, limite_minimo = some l → p'.limite_minimo = l) := by
  constructor
  · intro hnone
    simp [Estoque.atualizar_produto, hnone]
  · intro p hp
    refine ⟨aplicarCampos p nome tamanho cor quantidade preco limite_minimo,
      ?_, ?_, ?_, ?_, ?_, ?_, ?_, ?_, ?_, ?_, ?_, ?_, ?_, ?_, ?_, ?_, ?_, ?_⟩
    · simp [Estoque.atualizar_produto, hp]
    · simp [Estoque.atualizar_produto, hp, dictLookup_dictUpdate]
    · intro k hk
      simp [Estoque.atualizar_produto, hp, dictLookup_dictUpdate, hk]
    · simp [Estoque.atualizar_produto, hp]
    · simp [Estoque.atualizar_produto, hp]
    · simp [Estoque.atualizar_produto, hp]
    · rintro (rfl | rfl) <;> simp [aplicarCampos_nome, truthyStr]
    · rintro s rfl hs
      simp [aplicarCampos_nome, truthyStr, hs]
    · rintro (rfl | rfl) <;> simp [aplicarCampos_tamanho, truthyStr]
    · rintro s rfl hs
      simp [aplicarCampos_tamanho, truthyStr, hs]
    · rintro (rfl | rfl) <;> simp [aplicarCampos_cor, truthyStr]
    · rintro s rfl hs
      simp [aplicarCampos_cor, truthyStr, hs]
    · rintro rfl; simp [aplicarCampos_quantidade]
    · rintro q rfl; simp [aplicarCampos_quantidade]
    · rintro rfl; simp [aplicarCampos_preco]
    · rintro x rfl; simp [aplicarCampos_preco]
    · rintro rfl; simp [aplicarCampos_limite]
    · rintro l rfl; simp [aplicarCampos_limite]

/-- C9 witness: updating product 1 of `estoqueAB` with an absent name, an
empty size, color "Verde", quantity 0 and threshold 7 — instantiating the
theorem, so in particular quantity 0 is really applied and the empty size is
really ignored. -/
theorem atualizar_produto_spec_witness :
    (dictLookup estoqueAB.produtos 1 = none →
      estoqueAB.atualizar_produto 1 none (some "") (some "Verde") (some 0) none (some 7)
        = (estoqueAB, none)) ∧
    ∀ p, dictLookup estoqueAB.produtos 1 = some p →
      ∃ p',
        (estoqueAB.atualizar_produto 1 none (some "") (some "Verde") (some 0) none
            (some 7)).2 = some p' ∧
        dictLookup (estoqueAB.atualizar_produto 1 none (some "") (some "Verde") (some 0)
            none (some 7)).1.produtos 1 = some p' ∧
        (∀ k, k ≠ 1 →
          dictLookup (estoqueAB.atualizar_produto 1 none (some "") (some "Verde")
              (some 0) none (some 7)).1.produtos k = dictLookup estoqueAB.produtos k) ∧
        (estoqueAB.atualizar_produto 1 none (some "") (some "Verde") (some 0) none
            (some 7)).1.vendas = estoqueAB.vendas ∧
        (estoqueAB.atualizar_produto 1 none (some "") (some "Verde") (some 0) none
            (some 7)).1.ultimo_id_produto = estoqueAB.ultimo_id_produto ∧
        (estoqueAB.atualizar_produto 1 none (some "") (some "Verde") (some 0) none
            (some 7)).1.ultimo_id_venda = estoqueAB.ultimo_id_venda ∧
        (((none : Option String) = none ∨ (none : Option String) = some "") →
          p'.nome = p.nome) ∧
        (∀ s, (none : Option String) = some s → s ≠ "" → p'.nome = s) ∧
        (((some "" : Option String) = none ∨ (some "" : Option String) = some "") →
          p'.tamanho = p.tamanho) ∧
        (∀ s, (some "" : Option String) = some s → s ≠ "" → p'.tamanho = s) ∧
        (((some "Verde" : Option String) = none ∨
            (some "Verde" : Option String) = some "") → p'.cor = p.cor) ∧
        (∀ s, (some "Verde" : Option String) = some s → s ≠ "" → p'.cor = s) ∧
        ((some 0 : Option Int) = none → p'.quantidade = p.quantidade) ∧
        (∀ q, (some 0 : Option Int) = some q → p'.quantidade = q) ∧
        ((none : Option ℚ) = none → p'.preco = p.preco) ∧
        (∀ x, (none : Option ℚ) = some x → p'.preco = x) ∧
        ((some 7 : Option Int) = none → p'.limite_minimo = p.limite_minimo) ∧
        (∀ l, (some 7 : Option Int) = some l → p'.limite_minimo = l) :=
  atualizar_produto_spec estoqueAB 1 none (some "") (some "Verde") (some 0) none (some 7)

/-- Helper: `atualizar_produto` never touches the sales sequence. -/
theorem atualizar_produto_vendas (e : Estoque) (id_produto : Int)
    (nome tamanho cor : Option String) (quantidade : Option Int)
    (preco : Option ℚ) (limite_minimo : Option Int) :
    (e.atualizar_produto id_produto nome tamanho cor quantidade preco
        limite_minimo).1.vendas = e.vendas := by
  unfold Estoque.atualizar_produto
  cases dictLookup e.produtos id_produto <;> rfl

/-- C8: a committed sale's stored total is a point-in-time snapshot — any
later `atualizar_produto` call (changing price or any other field of any
product) leaves the sales sequence, hence every stored sale and its total,
exactly as it was; and the sale just committed still carries the total
computed from the settlement-time product prices. -/
theorem venda_total_snapshot (e : Estoque) (agora : Int) (m : List (Int × Int))
    (e1 : Estoque) (v : Venda)
    (hsale : e.registrar_venda agora m = (e1, some v))
    (id_produto : Int) (nome tamanho cor : Option String) (quantidade : Option Int)
    (preco : Option ℚ) (limite_minimo : Option Int) :
    (e1.atualizar_produto id_produto nome tamanho cor quantidade preco
        limite_minimo).1.vendas = e1.vendas ∧
    v ∈ (e1.atualizar_produto id_produto nome tamanho cor quantidade preco
        limite_minimo).1.vendas ∧
    v.valor_total = calcular_valor_total e1.produtos v.produtos := by
  refine ⟨atualizar_produto_vendas .., ?_, ?_⟩ <;>
  · rcases hval : validarVenda e.produtos m with _ | _
    · simp [Estoque.registrar_venda, hval] at hsale
    · simp only [Estoque.registrar_venda, hval, if_pos, Prod.mk.injEq] at hsale
      obtain ⟨rfl, hv⟩ := hsale
      obtain rfl : _ = v := Option.some.inj hv
      simp [atualizar_produto_vendas]

/-- C8 witness: after the concrete sale of `estoqueC2` (total 149.70), an
update that changes the product's price to 1 leaves the stored sale — and
its total — untouched. -/
theorem venda_total_snapshot_witness :
    ((estoqueC2.registrar_venda 0 [(1, 3)]).1.atualizar_produto 1 none none none none
        (some 1) none).1.vendas = (estoqueC2.registrar_venda 0 [(1, 3)]).1.vendas ∧
    (⟨1, [(1, 3)], 0, 1497 / 10⟩ : Venda) ∈
      ((estoqueC2.registrar_venda 0 [(1, 3)]).1.atualizar_produto 1 none none none
        none (some 1) none).1.vendas ∧
    (⟨1, [(1, 3)], 0, 1497 / 10⟩ : Venda).valor_total =
      calcular_valor_total (estoqueC2.registrar_venda 0 [(1, 3)]).1.produtos
        (⟨1, [(1, 3)], 0, 1497 / 10⟩ : Venda).produtos :=
  venda_total_snapshot estoqueC2 0 [(1, 3)] (estoqueC2.registrar_venda 0 [(1, 3)]).1
    ⟨1, [(1, 3)], 0, 1497 / 10⟩ (by rw [← estoqueC2_venda_eval]) 1 none none none none
    (some 1) none

/-- The ledger states reachable from the empty ledger by the public
operations, with the inputs the claim constrains: `adicionar_produto` with a
non-negative initial quantity, `atualizar_produto` whose supplied quantity
(if any) is non-negative, `remover_produto`, and `registrar_venda` whose
requested items form a dict (unique keys, as any Python
`Dict[int, int]`) with non-negative quantities. -/
inductive Alcancavel : Estoque → Prop where
  | inicial : Alcancavel estoqueInicial
  | adicionar (e : Estoque) (nome tamanho cor : String) (quantidade : Int)
      (preco : ℚ) (limite_minimo : Int) (he : Alcancavel e) (hq : 0 ≤ quantidade) :
      Alcancavel (e.adicionar_produto nome tamanho cor quantidade preco limite_minimo).1
  | atualizar (e : Estoque) (id_produto : Int) (nome tamanho cor : Option String)
      (quantidade : Option Int) (preco : Option ℚ) (limite_minimo : Option Int)
      (he : Alcancavel e) (hq : ∀ q, quantidade = some q → 0 ≤ q) :
      Alcancavel (e.atualizar_produto id_produto nome tamanho cor quantidade preco
        limite_minimo).1
  | remover (e : Estoque) (id_produto : Int) (he : Alcancavel e) :
      Alcancavel (e.remover_produto id_produto).1
  | vender (e : Estoque) (agora : Int) (m : List (Int × Int)) (he : Alcancavel e)
      (hnd : (m.map (·.1)).Nodup) (hq : ∀ it ∈ m, 0 ≤ it.2) :
      Alcancavel (e.registrar_venda agora m).1

/-- C4: in every ledger state reachable from the empty ledger by the public
operations (with non-negative supplied quantities), every stored product's
quantity is non-negative — in particular the stock-sufficiency check of
`registrar_venda` keeps committed sales from driving a quantity negative. -/
theorem alcancavel_quantidade_nonneg (e : Estoque) (he : Alcancavel e)
    (p : Produto) (hp : p ∈ dictValues e.produtos) : 0 ≤ p.quantidade := by
  induction he generalizing p with
  | inicial => simp [estoqueInicial, dictValues] at hp
  | adicionar e nome tamanho cor q preco lim he hq ih =>
      rw [show (e.adicionar_produto nome tamanho cor q preco lim).1.produtos =
            dictInsert e.produtos (e.ultimo_id_produto + 1)
              ⟨e.ultimo_id_produto + 1, nome, tamanho, cor, q, preco, lim⟩ from rfl,
          dictValues_dictInsert] at hp
      rcases List.mem_append.mp hp with h | h
      · exact ih p h
      · simp only [List.mem_singleton] at h
        subst h
        exact hq
  | atualizar e id_produto nome tamanho cor oq op ol he hq ih =>
      rcases hL : dictLookup e.produtos id_produto with _ | p0
      · rw [show (e.atualizar_produto id_produto nome tamanho cor oq op ol).1 = e from by
            simp [Estoque.atualizar_produto, hL]] at hp
        exact ih p hp
      · have hp' : p ∈ dictValues (dictUpdate e.produtos id_produto
            (fun _ => aplicarCampos p0 nome tamanho cor oq op ol)) := by
          simpa [Estoque.atualizar_produto, hL] using hp
        rcases mem_values_dictUpdate p hp' with h | ⟨w, hw, rfl⟩
        · exact ih p h
        · show 0 ≤ (aplicarCampos p0 nome tamanho cor oq op ol).quantidade
          rw [aplicarCampos_quantidade]
          cases oq with
          | none => simpa using ih p0 (dictLookup_mem_values hL)
          | some q => simpa using hq q rfl
  | remover e id_produto he ih =>
      by_cases hm : dictMem e.produtos id_produto
      · have : p ∈ dictValues (dictDelete e.produtos id_produto) := by
          simpa [Estoque.remover_produto, hm] using hp
        exact ih p (mem_values_dictDelete this)
      · rw [show (e.remover_produto id_produto).1 = e from by
            simp [Estoque.remover_produto, hm]] at hp
        exact ih p hp
  | vender e agora m he hnd hq ih =>
      rcases hval : validarVenda e.produtos m with _ | _
      · rw [show (e.registrar_venda agora m).1 = e from by
            simp [Estoque.registrar_venda, hval]] at hp
        exact ih p hp
      · have hp' : p ∈ dictValues (baixarEstoque e.produtos m) := by
          simpa [Estoque.registrar_venda, hval] using hp
        rcases mem_values_baixarEstoque hnd p hp' with h | ⟨k, q, w, hk, hw, rfl⟩
        · exact ih p h
        · obtain ⟨p', hp'', hle⟩ := validarVenda_eq_true.mp hval (k, q) hk
          rw [hw] at hp''
          obtain rfl : w = p' := by injection hp''
          simp only [Produto.atualizar_quantidade]
          omega

/-- C4 witness: `estoqueAB` is reachable (two `adicionar_produto` calls with
quantities 5 and 2), its product A is stored, and its quantity is
non-negative. -/
theorem alcancavel_quantidade_nonneg_witness :
    (⟨1, "A", "M", "Preta", 5, 10, 5⟩ : Produto) ∈ dictValues estoqueAB.produtos ∧
    0 ≤ (⟨1, "A", "M", "Preta", 5, 10, 5⟩ : Produto).quantidade :=
  ⟨by decide,
   alcancavel_quantidade_nonneg estoqueAB
    (Alcancavel.adicionar _ _ _ _ _ _ _
      (Alcancavel.adicionar _ _ _ _ _ _ _ Alcancavel.inicial (by norm_num)) (by norm_num))
    ⟨1, "A", "M", "Preta", 5, 10, 5⟩ (by decide)⟩

/-- Helper: every line of the list occurs inside the concatenated report
string, `\n`-terminated, between the text before it and the text after it. -/
theorem juntarLinhas_mem {l : String} {L : List String} (h : l ∈ L) :
    ∃ a b, juntarLinhas L = a ++ l ++ "\n" ++ b := by
  induction L with
  | nil => cases h
  | cons x rest ih =>
      rcases List.mem_cons.mp h with rfl | h'
      · exact ⟨"", juntarLinhas rest, by
          simp only [juntarLinhas, String.empty_append]⟩
      · obtain ⟨a, b, hab⟩ := ih h'
        refine ⟨x ++ "\n" ++ a, b, ?_⟩
        simp only [juntarLinhas, hab, String.append_assoc]

/-- The marker line `linhaItem` renders for a line item whose product id is
no longer in the product map (`diagrama.py` line 171). -/
def linhaNaoEncontrado (id_produto quantidade : Int) : String :=
  "  - " ++ toString quantidade ++ "x Produto ID " ++ toString id_produto ++
    " (não encontrado no estoque atual)"

/-- C7: for any sale in the ledger whose timestamp the report bounds cover
and any of its line items whose product id is no longer in the product map,
the sales report still lists the sale (its `__str__` line is one of the
report's lines), renders that line item as the `não encontrado no estoque
atual` marker line, and that marker line occurs inside the report string —
the report generator is a total function, so it cannot fail or raise. -/
theorem relatorio_vendas_tolerante (e : Estoque) (fmtDataHora fmtData : Int → String)
    (fmtValor : ℚ → String) (data_inicio data_fim : Option Int) (v : Venda)
    (hv : v ∈ e.vendas) (hper : noPeriodo data_inicio data_fim v.data = true)
    (id_produto q : Int) (hitem : (id_produto, q) ∈ v.produtos)
    (hmiss : dictLookup e.produtos id_produto = none) :
    v.str fmtDataHora fmtValor ∈
      linhasRelatorioVendas e fmtDataHora fmtData fmtValor data_inicio data_fim ∧
    linhaNaoEncontrado id_produto q ∈
      linhasRelatorioVendas e fmtDataHora fmtData fmtValor data_inicio data_fim ∧
    ∃ a b, e.gerar_relatorio_vendas fmtDataHora fmtData fmtValor data_inicio data_fim =
      a ++ linhaNaoEncontrado id_produto q ++ "\n" ++ b := by
  have hvp : v ∈ e.vendas.filter (fun w => noPeriodo data_inicio data_fim w.data) :=
    List.mem_filter.mpr ⟨hv, hper⟩
  have hbloco : v.str fmtDataHora fmtValor ∈ blocoVenda e.produtos fmtDataHora fmtValor v := by
    simp [blocoVenda]
  have hmarca : linhaNaoEncontrado id_produto q ∈
      blocoVenda e.produtos fmtDataHora fmtValor v := by
    have : linhaItem e.produtos fmtValor (id_produto, q) = linhaNaoEncontrado id_produto q := by
      simp [linhaItem, hmiss, linhaNaoEncontrado]
    refine List.mem_append.mpr (Or.inl (List.mem_append.mpr (Or.inr ?_)))
    rw [← this]
    exact List.mem_map.mpr ⟨(id_produto, q), hitem, rfl⟩
  have hmemflat : ∀ {l : String}, l ∈ blocoVenda e.produtos fmtDataHora fmtValor v →
      l ∈ linhasRelatorioVendas e fmtDataHora fmtData fmtValor data_inicio data_fim := by
    intro l hl
    refine List.mem_append.mpr (Or.inr ?_)
    exact List.mem_flatten.mpr ⟨_, List.mem_map.mpr ⟨v, hvp, rfl⟩, hl⟩
  refine ⟨hmemflat hbloco, hmemflat hmarca, ?_⟩
  exact juntarLinhas_mem (hmemflat hmarca)

/-- Concrete evaluation: selling 2 units of product A from `estoqueAB`
(price 10, so total 20) and then removing product 1 leaves a ledger whose
sole recorded sale dangles on product 1. -/
theorem estoqueAB_venda_remocao :
    ((estoqueAB.registrar_venda 3 [(1, 2)]).1.remover_produto 1).1.vendas
        = [⟨1, [(1, 2)], 3, 20⟩] ∧
    dictLookup ((estoqueAB.registrar_venda 3 [(1, 2)]).1.remover_produto 1).1.produtos 1
        = none := by
  constructor <;>
    norm_num [estoqueAB, estoqueInicial, Estoque.adicionar_produto, Estoque.registrar_venda,
      Estoque.remover_produto, validarVenda, dictLookup, dictInsert, dictMem, dictDelete,
      baixarEstoque, dictUpdate, calcular_valor_total, Produto.atualizar_quantidade]

/-- C7 witness: a ledger holding one recorded sale referencing product 1,
after product 1 was removed — the unbounded report lists the sale and
renders the marker line. -/
theorem relatorio_vendas_tolerante_witness :
    (⟨1, [(1, 2)], 3, 20⟩ : Venda).str toString toString ∈
      linhasRelatorioVendas ((estoqueAB.registrar_venda 3 [(1, 2)]).1.remover_produto 1).1
        toString toString toString none none ∧
    linhaNaoEncontrado 1 2 ∈
      linhasRelatorioVendas ((estoqueAB.registrar_venda 3 [(1, 2)]).1.remover_produto 1).1
        toString toString toString none none ∧
    ∃ a b, ((estoqueAB.registrar_venda 3 [(1, 2)]).1.remover_produto 1).1.gerar_relatorio_vendas
        toString toString toString none none =
      a ++ linhaNaoEncontrado 1 2 ++ "\n" ++ b :=
  relatorio_vendas_tolerante ((estoqueAB.registrar_venda 3 [(1, 2)]).1.remover_produto 1).1
    toString toString toString none none ⟨1, [(1, 2)], 3, 20⟩
    (by rw [estoqueAB_venda_remocao.1]; exact List.mem_singleton.mpr rfl)
    (by decide) 1 2 (by decide) estoqueAB_venda_remocao.2

end Diagrama
